import Mathlib

/-!
Shallow embedding of the book-club recommendation engine
(`src/recommender.py` over the snapshot read from `src/database.py`).

Numbers: Python floats are modelled as exact rationals (ℚ); Python ints as
`Int`/`Nat`.  For the weight-sum analysis the IEEE-754 binary64 values of the
weight literals and the binary64 addition actually performed by Python floats
are additionally modelled exactly (`roundB64`, `addB64`).  `round(x, 2)` is modelled as round-to-nearest at two decimal
places on ℚ.  Python's stable `list.sort` is modelled by `List.insertionSort`,
which is stable.  SQL `ORDER BY round_number DESC` is likewise modelled as a
stable descending sort of the table rows.
-/

namespace BookRec

/-- A row of the `books` table (as returned by `get_books`). -/
structure Book where
  id : Nat
  title : String
  author : String
  genre : String
  page_count : Int
  suggested_by : Option Nat
deriving DecidableEq

/-- A member together with the genres they like (as returned by `get_members`). -/
structure Member where
  id : Nat
  name : String
  preferred_length : Int
  liked_genres : List String
deriving DecidableEq

/-- A `reading_history` row joined with its book (as returned by `get_reading_history`). -/
structure HistoryEntry where
  book_id : Nat
  round_number : Int
  genre : String
deriving DecidableEq

/-- A row of the `vetoes` table. -/
structure Veto where
  member_id : Nat
  genre : String
  round_number : Int
deriving DecidableEq

/-- A point-in-time snapshot of the four tables the engine reads. -/
structure Db where
  books : List Book
  members : List Member
  history : List HistoryEntry
  vetoes : List Veto

/-- Descending order on round numbers, used to model `ORDER BY round_number DESC`. -/
def histDescRel (a b : HistoryEntry) : Prop :=
  b.round_number ≤ a.round_number

instance : DecidableRel histDescRel :=
  fun a b => inferInstanceAs (Decidable (b.round_number ≤ a.round_number))

/-- `db.get_reading_history()`: history rows ordered by round number descending. -/
def get_reading_history (db : Db) : List HistoryEntry :=
  db.history.insertionSort histDescRel

/-- `db.get_last_n_genres(n)`: genres of the `n` history rows with the highest
round numbers. -/
def get_last_n_genres (db : Db) (n : Nat) : List String :=
  ((db.history.insertionSort histDescRel).map (fun e => e.genre)).take n

/-- `db.get_vetoes(round_number)`: vetoed genres recorded for that round. -/
def get_vetoes (db : Db) (round_number : Int) : List String :=
  (db.vetoes.filter (fun v => decide (v.round_number = round_number))).map
    (fun v => v.genre)

/-- `db.get_current_round()`: `(max round number or 0) + 1`. -/
def get_current_round (db : Db) : Int :=
  ((db.history.map (fun e => e.round_number)).max?.getD 0) + 1

/-- The scoring weights record (`WEIGHTS` in `recommender.py`). -/
structure Weights where
  genre_match : ℚ
  length_preference : ℚ
  member_interest : ℚ
  diversity_bonus : ℚ

/-- Scoring weights (must sum to 1.0). -/
def WEIGHTS : Weights :=
  { genre_match := 0.4
    length_preference := 0.2
    member_interest := 0.3
    diversity_bonus := 0.1 }

/-- Round-to-nearest-integer with ties to even, the rounding rule of IEEE-754. -/
def rne (q : ℚ) : ℤ :=
  if q - ⌊q⌋ < 1/2 then ⌊q⌋
  else if 1/2 < q - ⌊q⌋ then ⌊q⌋ + 1
  else if ⌊q⌋ % 2 = 0 then ⌊q⌋ else ⌊q⌋ + 1

/-- IEEE-754 binary64 rounding of a positive rational in the normal range:
round to 53 significant bits, nearest, ties to even. -/
def roundB64 (x : ℚ) : ℚ :=
  if x ≤ 0 then 0
  else ((rne (x / 2 ^ (Int.log 2 x - 52)) : ℤ) : ℚ) * 2 ^ (Int.log 2 x - 52)

/-- Binary64 addition: round the exact sum, as Python float addition does. -/
def addB64 (x y : ℚ) : ℚ := roundB64 (x + y)

/-- The binary64 value of the literal 0.4. -/
def w04 : ℚ := roundB64 (4/10)

/-- The binary64 value of the literal 0.2. -/
def w02 : ℚ := roundB64 (2/10)

/-- The binary64 value of the literal 0.3. -/
def w03 : ℚ := roundB64 (3/10)

/-- The binary64 value of the literal 0.1. -/
def w01 : ℚ := roundB64 (1/10)

/-- The sum 0.4 + 0.2 + 0.3 + 0.1 as binary64 arithmetic performs it:
left to right, with a rounding after each addition. -/
def floatWeightSum : ℚ := addB64 (addB64 (addB64 w04 w02) w03) w01

/-- `calculate_genre_match`: share of members who like the book's genre, times 100;
50.0 when there are no members. -/
def calculate_genre_match (book : Book) (members : List Member) : ℚ :=
  if members = [] then 50
  else
    let members_who_like := members.countP (fun m => decide (book.genre ∈ m.liked_genres))
    ((members_who_like : ℚ) / (members.length : ℚ)) * 100

/-- `calculate_length_preference`: 100 minus one point per 5 pages of distance from
the median preferred length (floored at 0); 50.0 when there are no members. -/
def calculate_length_preference (book : Book) (members : List Member) : ℚ :=
  if members = [] then 50
  else
    let preferred_lengths := (members.map (fun m => m.preferred_length)).insertionSort (· ≤ ·)
    let n := preferred_lengths.length
    let ideal_length : ℚ :=
      if n % 2 = 0 then
        (((preferred_lengths.getD (n / 2 - 1) 0 : Int) : ℚ) +
          ((preferred_lengths.getD (n / 2) 0 : Int) : ℚ)) / 2
      else ((preferred_lengths.getD (n / 2) 0 : Int) : ℚ)
    let distance := |(book.page_count : ℚ) - ideal_length|
    let penalty := distance / 5
    max 0 (100 - penalty)

/-- `calculate_member_interest`: 100.0 when a member suggested the book, else 50.0. -/
def calculate_member_interest (book : Book) (_members : List Member) : ℚ :=
  match book.suggested_by with
  | some _ => 100
  | none => 50

/-- The `for ... else` loop of `calculate_diversity_bonus`: `some k` when the genre
occurs in the history, with `k` entries walked before the first occurrence;
`none` when the loop completes without a break. -/
def books_since (genre : String) : List HistoryEntry → Option Nat
  | [] => none
  | e :: rest =>
    if e.genre = genre then some 0
    else (books_since genre rest).map (fun k => k + 1)

/-- `calculate_diversity_bonus`: tiered reward for genres not read recently. -/
def calculate_diversity_bonus (book : Book) (reading_history : List HistoryEntry) : ℚ :=
  if reading_history = [] then 100
  else
    match books_since book.genre reading_history with
    | none => 100
    | some k => if k ≥ 5 then 100 else if k ≥ 3 then 70 else 0

/-- The `breakdown` dictionary of `calculate_book_score`. -/
structure Breakdown where
  genre_match : ℚ
  length_preference : ℚ
  member_interest : ℚ
  diversity_bonus : ℚ
deriving DecidableEq

/-- Python `round(x, 2)`: round to the nearest multiple of 1/100. -/
def round2 (x : ℚ) : ℚ :=
  ((round (x * 100) : ℤ) : ℚ) / 100

/-- `calculate_book_score`: weighted total (rounded to 2 decimals) and breakdown. -/
def calculate_book_score (book : Book) (members : List Member)
    (reading_history : List HistoryEntry) : ℚ × Breakdown :=
  let genre_match := calculate_genre_match book members
  let length_score := calculate_length_preference book members
  let interest_score := calculate_member_interest book members
  let diversity := calculate_diversity_bonus book reading_history
  let breakdown : Breakdown :=
    { genre_match := genre_match
      length_preference := length_score
      member_interest := interest_score
      diversity_bonus := diversity }
  let total_score :=
    WEIGHTS.genre_match * genre_match +
    WEIGHTS.length_preference * length_score +
    WEIGHTS.member_interest * interest_score +
    WEIGHTS.diversity_bonus * diversity
  (round2 total_score, breakdown)

/-- `apply_hard_constraints`: drop books already read, in the last-2 genres, or
vetoed for the current round. -/
def apply_hard_constraints (db : Db) (all_books : List Book)
    (reading_history : List HistoryEntry) (current_round : Int) : List Book :=
  let read_book_ids := reading_history.map (fun e => e.book_id)
  let last_2_genres := get_last_n_genres db 2
  let vetoed_genres := get_vetoes db current_round
  all_books.filter (fun book =>
    decide (book.id ∉ read_book_ids) &&
    decide (book.genre ∉ last_2_genres) &&
    decide (book.genre ∉ vetoed_genres))

/-- A scored book as assembled in STEP 2 of `get_recommendations`. -/
structure ScoredBook where
  book : Book
  score : ℚ
  score_breakdown : Breakdown
deriving DecidableEq

/-- Descending order on scores, used to model
`scored_books.sort(key=..., reverse=True)`. -/
def scoreDescRel (a b : ScoredBook) : Prop :=
  b.score ≤ a.score

instance : DecidableRel scoreDescRel :=
  fun a b => inferInstanceAs (Decidable (b.score ≤ a.score))

instance : IsTotal ScoredBook scoreDescRel :=
  ⟨fun a b => le_total b.score a.score⟩

instance : IsTrans ScoredBook scoreDescRel :=
  ⟨fun _ _ _ h1 h2 => le_trans h2 h1⟩

/-- Python slice `l[:n]`, including negative-`n` semantics. -/
def pySlice {α : Type} (l : List α) (n : Int) : List α :=
  if 0 ≤ n then l.take n.toNat else l.take (l.length - (-n).toNat)

/-- STEP 1 of `get_recommendations`: the eligible books. -/
def eligible_books (db : Db) : List Book :=
  apply_hard_constraints db db.books (get_reading_history db) (get_current_round db)

/-- STEP 2 of `get_recommendations`: score each eligible book. -/
def score_books (db : Db) (books : List Book) : List ScoredBook :=
  books.map (fun book =>
    let sb := calculate_book_score book db.members (get_reading_history db)
    { book := book, score := sb.1, score_breakdown := sb.2 })

/-- The scored eligible books, in filter-output order. -/
def scored_books (db : Db) : List ScoredBook :=
  score_books db (eligible_books db)

/-- The scored books sorted by score descending (stable). -/
def ranked_books (db : Db) : List ScoredBook :=
  (scored_books db).insertionSort scoreDescRel

/-- `get_recommendations(top_n)`: filter, score, sort descending, truncate. -/
def get_recommendations (db : Db) (top_n : Int) : List ScoredBook :=
  if eligible_books db = [] then []
  else pySlice (ranked_books db) top_n

/-! ### Concrete data used in scenario claims and witnesses -/

/-- Scenario member: preferred length 350, likes Fantasy. -/
def memberFan : Member :=
  { id := 1, name := "A", preferred_length := 350, liked_genres := ["Fantasy"] }

/-- Scenario member: preferred length 280, likes Mystery. -/
def memberMys : Member :=
  { id := 2, name := "B", preferred_length := 280, liked_genres := ["Mystery"] }

/-- Scenario candidate: Fantasy, 310 pages, no suggester. -/
def fantasyBook : Book :=
  { id := 1, title := "F", author := "a", genre := "Fantasy", page_count := 310,
    suggested_by := none }

/-- Scenario history: Mystery in round 5, Fantasy in round 4, SciFi in round 3. -/
def histMFS : List HistoryEntry :=
  [{ book_id := 10, round_number := 5, genre := "Mystery" },
   { book_id := 11, round_number := 4, genre := "Fantasy" },
   { book_id := 12, round_number := 3, genre := "SciFi" }]

/-- A second concrete candidate, suggested by member 1. -/
def mysteryBook : Book :=
  { id := 2, title := "M", author := "b", genre := "Mystery", page_count := 200,
    suggested_by := some 1 }

/-- A one-entry Fantasy history (gap 0 before the first Fantasy entry). -/
def histFan1 : List HistoryEntry := [{ book_id := 20, round_number := 1, genre := "Fantasy" }]

/-- The empty database snapshot. -/
def emptyDb : Db := { books := [], members := [], history := [], vetoes := [] }

/-- A snapshot with two eligible books and two members. -/
def demo2Db : Db :=
  { books := [fantasyBook, mysteryBook], members := [memberFan, memberMys],
    history := [], vetoes := [] }

/-- Spec-side median of the participants' preferred lengths (average of the two
middle values of the sorted list when the count is even). -/
def medianPref (members : List Member) : ℚ :=
  let ls := (members.map (fun m => m.preferred_length)).insertionSort (· ≤ ·)
  let n := ls.length
  if n % 2 = 0 then
    (((ls.getD (n / 2 - 1) 0 : Int) : ℚ) + ((ls.getD (n / 2) 0 : Int) : ℚ)) / 2
  else ((ls.getD (n / 2) 0 : Int) : ℚ)

/-! ### Helper lemmas -/

/-- Spec-side recency gap: the number of history entries strictly before the first
entry whose genre equals the candidate's genre. -/
def recency_gap (genre : String) (h : List HistoryEntry) : Nat :=
  (h.takeWhile (fun e => decide (e.genre ≠ genre))).length

theorem books_since_eq_none_iff (g : String) (h : List HistoryEntry) :
    books_since g h = none ↔ ∀ e ∈ h, e.genre ≠ g := by
  induction h with
  | nil => simp [books_since]
  | cons e rest ih =>
    by_cases hg : e.genre = g
    · simp [books_since, hg]
    · simp [books_since, hg, ih]

theorem books_since_eq_some (g : String) (h : List HistoryEntry)
    (hex : ¬ ∀ e ∈ h, e.genre ≠ g) :
    books_since g h = some (recency_gap g h) := by
  induction h with
  | nil => simp at hex
  | cons e rest ih =>
    by_cases hg : e.genre = g
    · simp [books_since, recency_gap, hg]
    · have hrest : ¬ ∀ e ∈ rest, e.genre ≠ g := by
        intro hall
        exact hex (by simpa [hg] using hall)
      rw [books_since, if_neg hg, ih hrest]
      simp [recency_gap, hg]

theorem diversity_eq (b : Book) (h : List HistoryEntry) :
    calculate_diversity_bonus b h =
      if ∀ e ∈ h, e.genre ≠ b.genre then 100
      else if 5 ≤ recency_gap b.genre h then 100
      else if 3 ≤ recency_gap b.genre h then 70 else 0 := by
  unfold calculate_diversity_bonus
  by_cases hnil : h = []
  · subst hnil; simp
  · rw [if_neg hnil]
    by_cases habs : ∀ e ∈ h, e.genre ≠ b.genre
    · rw [(books_since_eq_none_iff _ _).mpr habs, if_pos habs]
    · rw [books_since_eq_some _ _ habs, if_neg habs]

theorem genre_match_bounds (b : Book) (ms : List Member) :
    0 ≤ calculate_genre_match b ms ∧ calculate_genre_match b ms ≤ 100 := by
  rw [calculate_genre_match]
  split_ifs with hms
  · norm_num
  · have hlen : 0 < ms.length := List.length_pos.mpr hms
    have hlenQ : (0 : ℚ) < (ms.length : ℚ) := by exact_mod_cast hlen
    have hcount : ms.countP (fun m => decide (b.genre ∈ m.liked_genres)) ≤ ms.length :=
      List.countP_le_length _
    have hcQ : ((ms.countP (fun m => decide (b.genre ∈ m.liked_genres)) : ℕ) : ℚ) ≤
        (ms.length : ℚ) := by exact_mod_cast hcount
    have hdiv : ((ms.countP (fun m => decide (b.genre ∈ m.liked_genres)) : ℕ) : ℚ) /
        (ms.length : ℚ) ≤ 1 := (div_le_one hlenQ).mpr hcQ
    have hdiv0 : (0 : ℚ) ≤ ((ms.countP (fun m => decide (b.genre ∈ m.liked_genres)) : ℕ) : ℚ) /
        (ms.length : ℚ) := by positivity
    constructor
    · nlinarith
    · nlinarith

theorem length_preference_bounds (b : Book) (ms : List Member) :
    0 ≤ calculate_length_preference b ms ∧ calculate_length_preference b ms ≤ 100 := by
  rw [calculate_length_preference]
  split_ifs with hms
  · norm_num
  · dsimp only
    constructor
    · exact le_max_left _ _
    · exact max_le (by norm_num) (sub_le_self _ (by positivity))

theorem member_interest_bounds (b : Book) (ms : List Member) :
    0 ≤ calculate_member_interest b ms ∧ calculate_member_interest b ms ≤ 100 := by
  rw [calculate_member_interest]
  cases b.suggested_by <;> norm_num

theorem diversity_bonus_bounds (b : Book) (h : List HistoryEntry) :
    0 ≤ calculate_diversity_bonus b h ∧ calculate_diversity_bonus b h ≤ 100 := by
  rw [diversity_eq]
  split_ifs <;> norm_num

theorem round2_bounds (x : ℚ) (h0 : 0 ≤ x) (h1 : x ≤ 100) :
    0 ≤ round2 x ∧ round2 x ≤ 100 := by
  have hlow : (-1 : ℚ) < ((round (x * 100) : ℤ) : ℚ) := by
    have := sub_half_lt_round (x * 100)
    linarith
  have hhigh : ((round (x * 100) : ℤ) : ℚ) < 10001 := by
    have := round_le_add_half (x * 100)
    linarith
  have hlow' : (0 : ℤ) ≤ round (x * 100) := by
    have : (-1 : ℤ) < round (x * 100) := by exact_mod_cast hlow
    omega
  have hhigh' : round (x * 100) ≤ 10000 := by
    have : round (x * 100) < (10001 : ℤ) := by exact_mod_cast hhigh
    omega
  have hlowQ : (0 : ℚ) ≤ ((round (x * 100) : ℤ) : ℚ) := by exact_mod_cast hlow'
  have hhighQ : ((round (x * 100) : ℤ) : ℚ) ≤ 10000 := by exact_mod_cast hhigh'
  rw [round2]
  constructor
  · positivity
  · rw [div_le_iff₀ (by norm_num : (0 : ℚ) < 100)]
    linarith

theorem int_log_eq (x : ℚ) (e : ℤ) (hx : 0 < x) (hlow : (2:ℚ) ^ e ≤ x)
    (hhigh : x < (2:ℚ) ^ (e + 1)) : Int.log 2 x = e := by
  have hb : (1:ℕ) < 2 := one_lt_two
  have h1 : e ≤ Int.log 2 x := by
    rw [← Int.zpow_le_iff_le_log hb hx]
    exact_mod_cast hlow
  have h2 : Int.log 2 x < e + 1 := by
    rw [← Int.lt_zpow_iff_log_lt hb hx]
    exact_mod_cast hhigh
  omega

theorem rne_eq_low (q : ℚ) (n : ℤ) (h1 : (n : ℚ) ≤ q) (h2 : q < (n : ℚ) + 1/2) :
    rne q = n := by
  have hfl : ⌊q⌋ = n := Int.floor_eq_iff.mpr ⟨h1, by linarith⟩
  rw [rne, hfl, if_pos (by linarith)]

theorem rne_eq_high (q : ℚ) (n : ℤ) (h1 : (n : ℚ) + 1/2 < q) (h2 : q < (n : ℚ) + 1) :
    rne q = n + 1 := by
  have hfl : ⌊q⌋ = n := Int.floor_eq_iff.mpr ⟨by linarith, by linarith⟩
  rw [rne, hfl, if_neg (not_lt.mpr (by linarith)), if_pos (by linarith)]

theorem rne_eq_tie_odd (q : ℚ) (n : ℤ) (heq : q = (n : ℚ) + 1/2) (hodd : n % 2 = 1) :
    rne q = n + 1 := by
  have hfl : ⌊q⌋ = n := Int.floor_eq_iff.mpr ⟨by rw [heq]; linarith, by rw [heq]; linarith⟩
  rw [rne, hfl, if_neg (not_lt.mpr (by rw [heq]; linarith)),
    if_neg (not_lt.mpr (by rw [heq]; linarith)), if_neg (by omega)]

theorem roundB64_val (x : ℚ) (e n : ℤ) (q : ℚ) (hx : 0 < x)
    (hlow : (2:ℚ) ^ e ≤ x) (hhigh : x < (2:ℚ) ^ (e + 1))
    (hq : x / 2 ^ (e - 52) = q) (hrne : rne q = n) :
    roundB64 x = (n : ℚ) * 2 ^ (e - 52) := by
  rw [roundB64, if_neg (not_le.mpr hx), int_log_eq x e hx hlow hhigh, hq, hrne]

theorem w04_val : w04 = 3602879701896397 / 9007199254740992 := by
  rw [w04, roundB64_val (4/10) (-2) 7205759403792794 (36028797018963968/5)
    (by norm_num) (by norm_num) (by norm_num) (by norm_num)
    ((rne_eq_high _ 7205759403792793 (by norm_num) (by norm_num)).trans (by norm_num))]
  norm_num

theorem w02_val : w02 = 3602879701896397 / 18014398509481984 := by
  rw [w02, roundB64_val (2/10) (-3) 7205759403792794 (36028797018963968/5)
    (by norm_num) (by norm_num) (by norm_num) (by norm_num)
    ((rne_eq_high _ 7205759403792793 (by norm_num) (by norm_num)).trans (by norm_num))]
  norm_num

theorem w03_val : w03 = 5404319552844595 / 18014398509481984 := by
  rw [w03, roundB64_val (3/10) (-2) 5404319552844595 (27021597764222976/5)
    (by norm_num) (by norm_num) (by norm_num) (by norm_num)
    (rne_eq_low _ 5404319552844595 (by norm_num) (by norm_num))]
  norm_num

theorem w01_val : w01 = 3602879701896397 / 36028797018963968 := by
  rw [w01, roundB64_val (1/10) (-4) 7205759403792794 (36028797018963968/5)
    (by norm_num) (by norm_num) (by norm_num) (by norm_num)
    ((rne_eq_high _ 7205759403792793 (by norm_num) (by norm_num)).trans (by norm_num))]
  norm_num

theorem floatWeightSum_val : floatWeightSum = 4503599627370497 / 4503599627370496 := by
  have hs1 : addB64 w04 w02 = 5404319552844596 / 9007199254740992 := by
    rw [addB64, w04_val, w02_val,
      show (3602879701896397 / 9007199254740992 : ℚ) + 3602879701896397 / 18014398509481984 =
        10808639105689191 / 18014398509481984 by norm_num,
      roundB64_val _ (-1) 5404319552844596 (10808639105689191/2)
        (by norm_num) (by norm_num) (by norm_num) (by norm_num)
        ((rne_eq_tie_odd _ 5404319552844595 (by norm_num) (by norm_num)).trans (by norm_num))]
    norm_num
  have hs2 : addB64 (addB64 w04 w02) w03 = 8106479329266894 / 9007199254740992 := by
    rw [addB64, hs1, w03_val,
      show (5404319552844596 / 9007199254740992 : ℚ) + 5404319552844595 / 18014398509481984 =
        16212958658533787 / 18014398509481984 by norm_num,
      roundB64_val _ (-1) 8106479329266894 (16212958658533787/2)
        (by norm_num) (by norm_num) (by norm_num) (by norm_num)
        ((rne_eq_tie_odd _ 8106479329266893 (by norm_num) (by norm_num)).trans (by norm_num))]
    norm_num
  rw [floatWeightSum, addB64, hs2, w01_val,
    show (8106479329266894 / 9007199254740992 : ℚ) + 3602879701896397 / 36028797018963968 =
      36028797018963973 / 36028797018963968 by norm_num,
    roundB64_val _ 0 4503599627370497 (36028797018963973/8)
      (by norm_num) (by norm_num) (by norm_num) (by norm_num)
      ((rne_eq_high _ 4503599627370496 (by norm_num) (by norm_num)).trans (by norm_num))]
  norm_num

/-! ### Claims -/

/-- C7 counterexample: performed as the program's IEEE-754 binary64 arithmetic
performs it (each literal rounded to binary64, the additions rounded left to
right), the sum of the four weight constants is not 1. -/
theorem weights_float_sum_ne_one : floatWeightSum ≠ 1 := by
  rw [floatWeightSum_val]
  norm_num

/-- C7 (amended): the four scoring weight constants sum to 1.0 as exact decimal
values (the program never itself sums them); performed in the program's
binary64 arithmetic the sum is 1 + 2⁻⁵² = 1.0000000000000002, not 1. -/
theorem weights_sum_amended :
    (WEIGHTS.genre_match + WEIGHTS.length_preference + WEIGHTS.member_interest +
      WEIGHTS.diversity_bonus = 1) ∧
    floatWeightSum = 1 + (2:ℚ) ^ (-52 : ℤ) := by
  constructor
  · norm_num [WEIGHTS]
  · rw [floatWeightSum_val]
    norm_num

/-- C3: the total score equals `round2` of the weighted combination
0.4·a + 0.2·b + 0.3·c + 0.1·d of exactly the four sub-scores reported in the
returned breakdown, and the breakdown holds the four raw (unrounded) sub-scores. -/
theorem total_is_rounded_weighted_combination (b : Book) (ms : List Member)
    (h : List HistoryEntry) :
    (calculate_book_score b ms h).1 =
      round2 (0.4 * (calculate_book_score b ms h).2.genre_match +
              0.2 * (calculate_book_score b ms h).2.length_preference +
              0.3 * (calculate_book_score b ms h).2.member_interest +
              0.1 * (calculate_book_score b ms h).2.diversity_bonus) ∧
    (calculate_book_score b ms h).2 =
      { genre_match := calculate_genre_match b ms
        length_preference := calculate_length_preference b ms
        member_interest := calculate_member_interest b ms
        diversity_bonus := calculate_diversity_bonus b h } :=
  ⟨rfl, rfl⟩

/-- C5: with participants present the length-fit sub-score is
max(0, 100 - |length - median| / 5) with the standard even/odd median of the
preferred lengths (50 with no participants); in the scenario with preferred
lengths 350 and 280 and a 310-page Fantasy candidate with no suggester, empty
history and no exclusions, the sub-scores are 50, 99, 50, 100 and the total is
64.8. -/
theorem length_fit_formula_and_scenario :
    (∀ (b : Book) (ms : List Member), ms ≠ [] →
        calculate_length_preference b ms =
          max 0 (100 - |(b.page_count : ℚ) - medianPref ms| / 5)) ∧
    (∀ b : Book, calculate_length_preference b [] = 50) ∧
    medianPref [memberFan, memberMys] = 315 ∧
    calculate_genre_match fantasyBook [memberFan, memberMys] = 50 ∧
    calculate_length_preference fantasyBook [memberFan, memberMys] = 99 ∧
    calculate_member_interest fantasyBook [memberFan, memberMys] = 50 ∧
    calculate_diversity_bonus fantasyBook [] = 100 ∧
    (calculate_book_score fantasyBook [memberFan, memberMys] []).1 = 64.8 := by
  have hg : calculate_genre_match fantasyBook [memberFan, memberMys] = 50 := by
    rw [calculate_genre_match, if_neg (by decide)]
    simp [fantasyBook, memberFan, memberMys, List.countP_cons]
    norm_num
  have hl : calculate_length_preference fantasyBook [memberFan, memberMys] = 99 := by
    rw [calculate_length_preference, if_neg (by decide)]
    norm_num [fantasyBook, memberFan, memberMys, List.getD]
  have hi : calculate_member_interest fantasyBook [memberFan, memberMys] = 50 := rfl
  have hd : calculate_diversity_bonus fantasyBook [] = 100 := rfl
  refine ⟨fun b ms hne => ?_, fun b => rfl, ?_, hg, hl, hi, hd, ?_⟩
  · rw [calculate_length_preference, if_neg hne]
    rfl
  · norm_num [medianPref, memberFan, memberMys, List.getD]
  · simp only [calculate_book_score]
    rw [hg, hl, hi, hd]
    have hsum : WEIGHTS.genre_match * 50 + WEIGHTS.length_preference * 99 +
        WEIGHTS.member_interest * 50 + WEIGHTS.diversity_bonus * 100 = (64.8 : ℚ) := by
      norm_num [WEIGHTS]
    rw [hsum, round2, show (64.8 : ℚ) * 100 = ((6480 : ℤ) : ℚ) by norm_num, round_intCast]
    norm_num

/-- C5 witness: the general length-fit formula applied to the scenario
participants, whose list is nonempty. -/
theorem length_fit_formula_witness :
    [memberFan, memberMys] ≠ ([] : List Member) ∧
    calculate_length_preference fantasyBook [memberFan, memberMys] =
      max 0 (100 - |(fantasyBook.page_count : ℚ) - medianPref [memberFan, memberMys]| / 5) :=
  ⟨by decide, length_fit_formula_and_scenario.1 fantasyBook [memberFan, memberMys] (by decide)⟩

/-- C6: each of the four sub-scores and the returned total score lie in [0, 100]. -/
theorem scores_in_range (b : Book) (ms : List Member) (h : List HistoryEntry) :
    (0 ≤ calculate_genre_match b ms ∧ calculate_genre_match b ms ≤ 100) ∧
    (0 ≤ calculate_length_preference b ms ∧ calculate_length_preference b ms ≤ 100) ∧
    (0 ≤ calculate_member_interest b ms ∧ calculate_member_interest b ms ≤ 100) ∧
    (0 ≤ calculate_diversity_bonus b h ∧ calculate_diversity_bonus b h ≤ 100) ∧
    (0 ≤ (calculate_book_score b ms h).1 ∧ (calculate_book_score b ms h).1 ≤ 100) := by
  obtain ⟨hg0, hg1⟩ := genre_match_bounds b ms
  obtain ⟨hl0, hl1⟩ := length_preference_bounds b ms
  obtain ⟨hi0, hi1⟩ := member_interest_bounds b ms
  obtain ⟨hd0, hd1⟩ := diversity_bonus_bounds b h
  refine ⟨⟨hg0, hg1⟩, ⟨hl0, hl1⟩, ⟨hi0, hi1⟩, ⟨hd0, hd1⟩, ?_⟩
  have hfst : (calculate_book_score b ms h).1 =
      round2 (WEIGHTS.genre_match * calculate_genre_match b ms +
        WEIGHTS.length_preference * calculate_length_preference b ms +
        WEIGHTS.member_interest * calculate_member_interest b ms +
        WEIGHTS.diversity_bonus * calculate_diversity_bonus b h) := rfl
  rw [hfst]
  apply round2_bounds
  · simp only [WEIGHTS]
    nlinarith
  · simp only [WEIGHTS]
    nlinarith

/-- C4: the diversity bonus is 100 when the history is empty or never mentions the
candidate's genre, and otherwise is tiered (100 / 70 / 0) on the number `k` of
history entries strictly before the first same-genre entry; in the scenario
[Mystery r5, Fantasy r4, SciFi r3] with a Fantasy candidate, k = 1 and the
sub-score is 0. -/
theorem diversity_bonus_spec :
    (∀ (b : Book) (h : List HistoryEntry),
        calculate_diversity_bonus b h =
          if h = [] ∨ ∀ e ∈ h, e.genre ≠ b.genre then 100
          else if 5 ≤ recency_gap b.genre h then 100
          else if 3 ≤ recency_gap b.genre h then 70 else 0) ∧
    recency_gap fantasyBook.genre histMFS = 1 ∧
    calculate_diversity_bonus fantasyBook histMFS = 0 := by
  refine ⟨fun b h => ?_, by decide, by decide⟩
  rw [diversity_eq]
  by_cases hnil : h = []
  · subst hnil; simp
  · have : (h = [] ∨ ∀ e ∈ h, e.genre ≠ b.genre) ↔ ∀ e ∈ h, e.genre ≠ b.genre :=
      or_iff_right hnil
    rw [if_congr this rfl rfl]

/-- C1: a candidate of the pool survives `apply_hard_constraints` (run, as in
`get_recommendations`, on the history ordered by round number descending) if and
only if its id appears in no history entry, its genre is not among the genres of
the up-to-two history entries with the highest round numbers, and its genre is
not among the exclusions recorded for the current round. -/
theorem hard_constraints_mem_iff (db : Db) (pool : List Book) (r : Int) (b : Book) :
    b ∈ apply_hard_constraints db pool (get_reading_history db) r ↔
      b ∈ pool ∧
      (∀ e ∈ db.history, e.book_id ≠ b.id) ∧
      b.genre ∉ get_last_n_genres db 2 ∧
      b.genre ∉ get_vetoes db r := by
  have hperm : List.Perm ((get_reading_history db).map (fun e => e.book_id))
      (db.history.map (fun e => e.book_id)) :=
    (List.perm_insertionSort histDescRel db.history).map _
  simp only [apply_hard_constraints, List.mem_filter, Bool.and_eq_true, decide_eq_true_eq,
    hperm.mem_iff, List.mem_map, not_exists]
  push_neg
  tauto

/-- C8: the engine is a total function; an empty pool or an empty eligible set
yields the empty recommendation list, and an empty participant list yields the
neutral 50.0 genre-match and length-fit sub-scores. -/
theorem engine_totality_on_degenerate_inputs :
    (∀ (db : Db) (n : Int), db.books = [] → get_recommendations db n = []) ∧
    (∀ b : Book, calculate_genre_match b [] = 50 ∧ calculate_length_preference b [] = 50) ∧
    (∀ (db : Db) (n : Int), eligible_books db = [] → get_recommendations db n = []) := by
  have hempty : ∀ (db : Db) (n : Int), eligible_books db = [] → get_recommendations db n = [] :=
    fun db n he => by rw [get_recommendations, if_pos he]
  refine ⟨fun db n hb => ?_, fun b => ⟨rfl, rfl⟩, hempty⟩
  apply hempty
  simp [eligible_books, apply_hard_constraints, hb]

/-- C8 witness: on the empty snapshot, `recommend(10)` returns the empty list. -/
theorem engine_totality_witness :
    emptyDb.books = [] ∧ get_recommendations emptyDb 10 = [] :=
  ⟨rfl, engine_totality_on_degenerate_inputs.1 emptyDb 10 rfl⟩

/-- C9: `top_n = 0` yields the empty list, and a negative `top_n` smaller in
magnitude than the number of scored candidates yields the ranked list with its
last (lowest-scored) entries removed, exactly Python ``scored_books[:top_n]``. -/
theorem top_n_slice_semantics :
    (∀ db : Db, get_recommendations db 0 = []) ∧
    (∀ (db : Db) (t : Int), t < 0 → (-t).toNat < (scored_books db).length →
        get_recommendations db t =
          (ranked_books db).take ((ranked_books db).length - (-t).toNat)) := by
  constructor
  · intro db
    rw [get_recommendations]
    split_ifs with he
    · rfl
    · simp only [pySlice, if_pos (le_refl (0 : Int))]
      rfl
  · intro db t ht hlen
    have hne : eligible_books db ≠ [] := by
      intro he
      rw [scored_books, he] at hlen
      simp [score_books] at hlen
    rw [get_recommendations, if_neg hne]
    simp only [pySlice, if_neg (by omega : ¬ (0 : Int) ≤ t)]

/-- C9 witness: on a snapshot with two eligible books, `top_n = -1` keeps the
single highest-scored entry. -/
theorem top_n_slice_witness :
    ((-1 : Int) < 0 ∧ ((-(-1) : Int)).toNat < (scored_books demo2Db).length) ∧
    get_recommendations demo2Db (-1) =
      (ranked_books demo2Db).take ((ranked_books demo2Db).length - ((-(-1) : Int)).toNat) :=
  ⟨⟨by decide, by decide⟩,
    top_n_slice_semantics.2 demo2Db (-1) (by decide) (by decide)⟩

theorem tier_mono (k1 k2 : Nat) (hk : k1 ≤ k2) :
    (if 5 ≤ k1 then (100 : ℚ) else if 3 ≤ k1 then 70 else 0) ≤
      (if 5 ≤ k2 then (100 : ℚ) else if 3 ≤ k2 then 70 else 0) := by
  split_ifs <;> try norm_num
  all_goals omega

/-- C10: the diversity bonus is monotone non-decreasing in the recency gap: a
history whose gap before the first same-genre entry is at least as large (or
which lacks the genre entirely while the other contains it) never gets a
smaller bonus. -/
theorem diversity_bonus_monotone (b : Book) (h h2 : List HistoryEntry)
    (hyp : ((∃ e ∈ h2, e.genre = b.genre) ∧ (∃ e ∈ h, e.genre = b.genre) ∧
              recency_gap b.genre h ≤ recency_gap b.genre h2) ∨
           ((∀ e ∈ h2, e.genre ≠ b.genre) ∧ (∃ e ∈ h, e.genre = b.genre))) :
    calculate_diversity_bonus b h ≤ calculate_diversity_bonus b h2 := by
  rw [diversity_eq, diversity_eq]
  rcases hyp with ⟨hp2, hp, hk⟩ | ⟨ha2, hp⟩
  · have hnot : ¬ ∀ e ∈ h, e.genre ≠ b.genre := by push_neg; exact hp
    have hnot2 : ¬ ∀ e ∈ h2, e.genre ≠ b.genre := by push_neg; exact hp2
    rw [if_neg hnot, if_neg hnot2]
    exact tier_mono _ _ hk
  · rw [if_pos ha2]
    have hnot : ¬ ∀ e ∈ h, e.genre ≠ b.genre := by push_neg; exact hp
    rw [if_neg hnot]
    split_ifs <;> norm_num

/-- C10 witness: gap 0 (history starting with Fantasy) versus gap 1 (the
Mystery/Fantasy/SciFi history) for a Fantasy candidate. -/
theorem diversity_bonus_monotone_witness :
    (((∃ e ∈ histMFS, e.genre = fantasyBook.genre) ∧
        (∃ e ∈ histFan1, e.genre = fantasyBook.genre) ∧
        recency_gap fantasyBook.genre histFan1 ≤ recency_gap fantasyBook.genre histMFS) ∨
      ((∀ e ∈ histMFS, e.genre ≠ fantasyBook.genre) ∧
        (∃ e ∈ histFan1, e.genre = fantasyBook.genre))) ∧
    calculate_diversity_bonus fantasyBook histFan1 ≤
      calculate_diversity_bonus fantasyBook histMFS :=
  ⟨Or.inl ⟨by decide, by decide, by decide⟩,
    diversity_bonus_monotone fantasyBook histFan1 histMFS
      (Or.inl ⟨by decide, by decide, by decide⟩)⟩

/-- C2: for `top_n` at least 1, `get_recommendations` returns exactly
min(top_n, number of eligible books) scored candidates, sorted non-increasing by
total score; the sort is stable (candidates of equal score keep the relative
order they had in the scored filter output), the scored list is the filter
output in order, and the filter output preserves pool order. -/
theorem recommend_ranked_stable (db : Db) (top_n : Int) (hn : 1 ≤ top_n) :
    (get_recommendations db top_n).length = min top_n.toNat (eligible_books db).length ∧
    List.Sorted scoreDescRel (get_recommendations db top_n) ∧
    (∀ q : ℚ, (ranked_books db).filter (fun x => decide (x.score = q)) =
        (scored_books db).filter (fun x => decide (x.score = q))) ∧
    (∀ q : ℚ, List.Sublist ((get_recommendations db top_n).filter (fun x => decide (x.score = q)))
        ((scored_books db).filter (fun x => decide (x.score = q)))) ∧
    (scored_books db).map (fun x => x.book) = eligible_books db ∧
    List.Sublist (eligible_books db) db.books := by
  have hstab : ∀ q : ℚ, (ranked_books db).filter (fun x => decide (x.score = q)) =
      (scored_books db).filter (fun x => decide (x.score = q)) := by
    intro q
    have hpair : ((scored_books db).filter (fun x => decide (x.score = q))).Pairwise
        scoreDescRel := by
      apply List.pairwise_of_forall_mem_list
      intro a ha c hc
      have ha2 : a.score = q := of_decide_eq_true (List.mem_filter.mp ha).2
      have hc2 : c.score = q := of_decide_eq_true (List.mem_filter.mp hc).2
      unfold scoreDescRel
      rw [ha2, hc2]
    have hsub : List.Sublist ((scored_books db).filter (fun x => decide (x.score = q)))
        (ranked_books db) :=
      List.sublist_insertionSort hpair (List.filter_sublist _)
    have hsub2 := hsub.filter (fun x => decide (x.score = q))
    rw [List.filter_filter] at hsub2
    simp only [Bool.and_self] at hsub2
    have hlenq : ((ranked_books db).filter (fun x => decide (x.score = q))).length =
        ((scored_books db).filter (fun x => decide (x.score = q))).length :=
      ((List.perm_insertionSort scoreDescRel (scored_books db)).filter _).length_eq
    exact (hsub2.eq_of_length hlenq.symm).symm
  have hmap : (scored_books db).map (fun x => x.book) = eligible_books db := by
    rw [scored_books, score_books]
    simp [List.map_map, Function.comp_def]
  have helig : List.Sublist (eligible_books db) db.books := by
    rw [eligible_books, apply_hard_constraints]
    exact List.filter_sublist _
  by_cases he : eligible_books db = []
  · have hscored : scored_books db = [] := by rw [scored_books, he]; rfl
    have hrec : get_recommendations db top_n = [] := by rw [get_recommendations, if_pos he]
    refine ⟨?_, ?_, hstab, ?_, hmap, helig⟩
    · rw [hrec, he]
      simp
    · rw [hrec]
      exact List.sorted_nil
    · intro q
      rw [hrec]
      simp
  · have h0 : (0 : Int) ≤ top_n := by omega
    have hrec : get_recommendations db top_n = (ranked_books db).take top_n.toNat := by
      rw [get_recommendations, if_neg he]
      simp only [pySlice, if_pos h0]
    have hlen_rank : (ranked_books db).length = (eligible_books db).length := by
      rw [ranked_books, (List.perm_insertionSort scoreDescRel (scored_books db)).length_eq,
        scored_books, score_books, List.length_map]
    refine ⟨?_, ?_, hstab, ?_, hmap, helig⟩
    · rw [hrec, List.length_take, hlen_rank]
    · rw [hrec]
      exact List.Pairwise.sublist (List.take_sublist _ _)
        (List.sorted_insertionSort scoreDescRel _)
    · intro q
      rw [hrec, ← hstab q]
      exact (List.take_sublist _ _).filter _

/-- C2 witness: the ranking contract instantiated at the two-book snapshot with
`top_n = 1`. -/
theorem recommend_ranked_stable_witness :
    (1 : Int) ≤ 1 ∧
    ((get_recommendations demo2Db 1).length = min (1 : Int).toNat (eligible_books demo2Db).length ∧
     List.Sorted scoreDescRel (get_recommendations demo2Db 1) ∧
     (∀ q : ℚ, (ranked_books demo2Db).filter (fun x => decide (x.score = q)) =
        (scored_books demo2Db).filter (fun x => decide (x.score = q))) ∧
     (∀ q : ℚ, List.Sublist ((get_recommendations demo2Db 1).filter (fun x => decide (x.score = q)))
        ((scored_books demo2Db).filter (fun x => decide (x.score = q)))) ∧
     (scored_books demo2Db).map (fun x => x.book) = eligible_books demo2Db ∧
     List.Sublist (eligible_books demo2Db) demo2Db.books) :=
  ⟨by decide, recommend_ranked_stable demo2Db 1 (by decide)⟩

end BookRec
